import Mathlib

/-!
Shallow embedding of the vehicle-detection dashboard logic of `src/app.js`
(the polling/render component: `generateSampleData`, `changePeriod`,
`updateData`, `updateObjectsTable`, `updateConnectionStatus`, control
functions, `healthCheck`, the visibility-change timer handling, and the
touch-gesture handler).  DOM nodes touched by the code are modelled as
fields of an explicit display-state record; `fetch` outcomes are modelled
as an explicit result type (network rejection vs. an HTTP response with an
`ok` flag and a parsed JSON body).
-/

/-- The chart aggregation period: `currentPeriod ∈ \x7bday, week, month\x7d`. -/
inductive Period where
  | day
  | week
  | month
deriving DecidableEq, Repr, BEq

/-- One labels/data pair, as held by the chart and by `generateSampleData`
and the per-period analytics payload. -/
structure ChartData where
  labels : List String
  data : List ℚ
deriving DecidableEq, Repr

/-- `generateSampleData(period)` from `src/app.js`: hardcoded per-period
label/value arrays.  The source indexes a literal object and falls back to
`data.day` for unknown keys; with `Period` an enum the three cases are total. -/
def generateSampleData : Period → ChartData
  | .day =>
    { labels := ["00:00", "03:00", "06:00", "09:00", "12:00", "15:00", "18:00", "21:00"]
      data := [12, 8, 25, 45, 38, 52, 68, 42] }
  | .week =>
    { labels := ["Monday", "Tuesday", "Wednesday", "Thursday", "Friday", "Saturday", "Sunday"]
      data := [234, 187, 298, 345, 412, 389, 267] }
  | .month =>
    { labels := ["Week 1", "Week 2", "Week 3", "Week 4"]
      data := [1250, 1434, 1123, 1567] }

/-- `colorThemes[period]` from `src/app.js`: the (background, border) pair
applied to the chart dataset by `changePeriod`. -/
def colorThemes : Period → String × String
  | .day => ("rgba(102, 126, 234, 0.1)", "#667eea")
  | .week => ("rgba(240, 147, 251, 0.1)", "#f093fb")
  | .month => ("rgba(79, 172, 254, 0.1)", "#4facfe")

/-- `period.charAt(0).toUpperCase() + period.slice(1)` applied to the three
period names, as used by `changePeriod`'s notification text. -/
def periodText : Period → String
  | .day => "Day"
  | .week => "Week"
  | .month => "Month"

/-- One element of the `objects` array of the `/detected-objects` payload. -/
structure DetectedObject where
  id : ℤ
  vehicle_type : String
  confidence_score : ℚ
  detected_at : String
  status : String
deriving DecidableEq, Repr

/-- The confidence CSS class derived in `updateObjectsTable`:
default low, high when `confidence_score >= 80`, else medium when
`confidence_score >= 60`. -/
def confidenceClass (score : ℚ) : String :=
  if score ≥ 80 then "confidence-high"
  else if score ≥ 60 then "confidence-medium"
  else "confidence-low"

/-- The rendered cells and CSS classes of one `<tr>` built by
`updateObjectsTable` for one detected object. -/
structure TableRow where
  idCell : String
  vehicleClass : String
  vehicleIcon : String
  vehicleTypeText : String
  confidenceCls : String
  confidenceText : String
  detectedAt : String
  statusClass : String
  statusText : String
deriving DecidableEq, Repr

/-- The row template of `updateObjectsTable`'s `objects.forEach` body. -/
def renderRow (obj : DetectedObject) : TableRow :=
  { idCell := "#" ++ toString obj.id
    vehicleClass := if obj.vehicle_type = "car" then "vehicle-car" else "vehicle-motorcycle"
    vehicleIcon := if obj.vehicle_type = "car" then "🚗" else "🏍️"
    vehicleTypeText := obj.vehicle_type
    confidenceCls := confidenceClass obj.confidence_score
    confidenceText := toString obj.confidence_score ++ "%"
    detectedAt := obj.detected_at
    statusClass := if obj.status = "Active" then "status-active" else "status-expired"
    statusText := obj.status }

/-- The DOM state written by `updateObjectsTable`: the count badge's text,
the `display` style of the `no-objects` div, and the rows of the table body. -/
structure TableState where
  badgeText : String
  noObjectsDisplay : String
  rows : List TableRow
deriving DecidableEq, Repr

/-- `updateObjectsTable(objects)` from `src/app.js`.  It overwrites the
badge, the empty-state div and the table body wholesale; the previous DOM
state `t` is never read. -/
def updateObjectsTable (objects : List DetectedObject) (_t : TableState) : TableState :=
  let badge := toString objects.length ++ " objects"
  if objects.length = 0 then
    { badgeText := badge, noObjectsDisplay := "block", rows := [] }
  else
    { badgeText := badge, noObjectsDisplay := "none", rows := objects.map renderRow }

/-- The `active` class of the three `.chart-control-btn` elements. -/
structure Buttons where
  dayActive : Bool
  weekActive : Bool
  monthActive : Bool
deriving DecidableEq, Repr

/-- Number of period buttons carrying the `active` class. -/
def activeCount (b : Buttons) : Nat :=
  (if b.dayActive then 1 else 0) + (if b.weekActive then 1 else 0)
    + (if b.monthActive then 1 else 0)

/-- The dashboard's global variables and the DOM nodes the polling/render
code writes: connection indicator, chart model, objects table, stat values,
detection status indicator, and the current toast notification (the
notification system removes existing toasts before appending the new one,
so at most one is current). -/
structure DashState where
  currentPeriod : Period
  isConnected : Bool
  connectionIndicatorClass : String
  buttons : Buttons
  chartLabels : List String
  chartData : List ℚ
  chartBackground : String
  chartBorder : String
  table : TableState
  activeObjects : String
  lastUpdate : String
  detectionGlyph : String
  detectionClass : String
  statusText : String
  notification : Option (String × String)
deriving DecidableEq, Repr

/-- `updateConnectionStatus(connected)` from `src/app.js`. -/
def updateConnectionStatus (connected : Bool) (s : DashState) : DashState :=
  if connected then
    { s with connectionIndicatorClass := "status-indicator connected", isConnected := true }
  else
    { s with connectionIndicatorClass := "status-indicator", isConnected := false }

/-- `showNotification(message, type)`: replaces any existing toast with the
new one (auto-dismiss timing is not modelled). -/
def showNotification (message ty : String) (s : DashState) : DashState :=
  { s with notification := some (message, ty) }

/-- `changePeriod(period)` from `src/app.js`: sets `currentPeriod`, moves
the `active` class to the selected button, swaps the chart theme, replaces
the chart data with the per-period sample data, redraws (animation not
modelled) and emits an info notification. -/
def changePeriod (period : Period) (s : DashState) : DashState :=
  let theme := colorThemes period
  let sampleData := generateSampleData period
  showNotification ("📊 Switched to " ++ periodText period ++ " view") "info"
    { s with
      currentPeriod := period
      buttons :=
        { dayActive := period == .day
          weekActive := period == .week
          monthActive := period == .month }
      chartBackground := theme.1
      chartBorder := theme.2
      chartLabels := sampleData.labels
      chartData := sampleData.data }

/-- Outcome of one `fetch`: `netError` models the promise rejecting
(network failure); `response ok body` models a settled HTTP response with
its `ok` flag and its parsed JSON body. -/
inductive Fetch (α : Type) where
  | netError : Fetch α
  | response (ok : Bool) (body : α) : Fetch α
deriving DecidableEq, Repr

/-- A fetch outcome counts as failed when the promise rejected or the
response's `ok` flag is false. -/
def fetchFailed {α : Type} : Fetch α → Bool
  | .netError => true
  | .response ok _ => !ok

/-- The `analytics` object of the `/vehicle-stats` payload: each period key
may be present or absent. -/
structure AnalyticsMap where
  day : Option ChartData
  week : Option ChartData
  month : Option ChartData
deriving DecidableEq, Repr

/-- Key lookup `analytics[period]`. -/
def AnalyticsMap.get (m : AnalyticsMap) : Period → Option ChartData
  | .day => m.day
  | .week => m.week
  | .month => m.month

/-- Parsed `/vehicle-stats` payload; `analytics` itself may be absent
(`statsData.analytics && ...`). -/
structure StatsData where
  is_running : Bool
  analytics : Option AnalyticsMap
deriving DecidableEq, Repr

/-- Parsed `/detected-objects` payload. -/
structure ObjectsData where
  active_objects : ℤ
  objects : List DetectedObject
deriving DecidableEq, Repr

/-- The render steps of `updateData`'s success path, in source order:
connection status, stat values, detection-status indicator, objects table,
then — when `statsData.analytics` carries the currently selected period —
that period's chart labels/data (the no-animation redraw is presentation
and not modelled).  `now` is `new Date().toLocaleTimeString()`. -/
def updateDataSuccess (statsData : StatsData) (objectsData : ObjectsData)
    (now : String) (s : DashState) : DashState :=
  let s1 := updateConnectionStatus true s
  let s2 := { s1 with
    activeObjects := toString objectsData.active_objects
    lastUpdate := now }
  let s3 :=
    if statsData.is_running then
      { s2 with
        detectionGlyph := "●"
        detectionClass := "stat-value status-running"
        statusText := "Running" }
    else
      { s2 with
        detectionGlyph := "⏸"
        detectionClass := "stat-value status-stopped"
        statusText := "Stopped" }
  let s4 := { s3 with table := updateObjectsTable objectsData.objects s3.table }
  match statsData.analytics with
  | some am =>
    match am.get s4.currentPeriod with
    | some analyticsData =>
      { s4 with chartLabels := analyticsData.labels, chartData := analyticsData.data }
    | none => s4
  | none => s4

/-- The `try` block of `updateData`: `Promise.all` of the two fetches
(rejects when either rejects), the joint `ok` check, then the success-path
render steps. -/
def updateDataTry (statsRes : Fetch StatsData) (objectsRes : Fetch ObjectsData)
    (now : String) (s : DashState) : Except String DashState :=
  match statsRes, objectsRes with
  | .netError, _ => .error "fetch rejected"
  | _, .netError => .error "fetch rejected"
  | .response okStats statsData, .response okObjects objectsData =>
    if !okStats || !okObjects then .error "Failed to fetch data"
    else .ok (updateDataSuccess statsData objectsData now s)

/-- `updateData()` from `src/app.js`: the `try` body with its own `catch`,
which logs and calls `updateConnectionStatus(false)`.  The returned promise
therefore always resolves — modelled as always producing `Except.ok`. -/
def updateData (statsRes : Fetch StatsData) (objectsRes : Fetch ObjectsData)
    (now : String) (s : DashState) : Except String DashState :=
  match updateDataTry statsRes objectsRes now s with
  | .ok s' => .ok s'
  | .error _ => .ok (updateConnectionStatus false s)

/-- `refreshData()` from `src/app.js`: awaits `updateData` and shows the
success toast; its `catch` would show the failure toast if the awaited
promise rejected (button disable/enable is presentation and not modelled). -/
def refreshData (statsRes : Fetch StatsData) (objectsRes : Fetch ObjectsData)
    (now : String) (s : DashState) : DashState :=
  match updateData statsRes objectsRes now s with
  | .ok s' => showNotification "🔁 Data refreshed successfully!" "success" s'
  | .error _ => showNotification "❌ Failed to refresh data" "error" s

/-- Parsed `/health` payload. -/
structure HealthData where
  status : String
deriving DecidableEq, Repr

/-- `healthCheck()` from `src/app.js`.  Returns the new display state and
the function's boolean result.  A network (or parse) failure is caught and
marks disconnected; a parsed payload is only tested for
`status === 'healthy'` — the non-healthy branch falls through to
`return false` without touching the connection status. -/
def healthCheck (res : Fetch HealthData) (s : DashState) : DashState × Bool :=
  match res with
  | .netError => (updateConnectionStatus false s, false)
  | .response _ data =>
    if data.status = "healthy" then (updateConnectionStatus true s, true)
    else (s, false)

/-- `\x7bsuccess, message?\x7d` payload of the POST command endpoints. -/
structure CmdResult where
  success : Bool
  message : Option String
deriving DecidableEq, Repr

/-- `resetCount()` from `src/app.js`, up to the end of its `try`/`catch`
(the `finally` re-enables the button and schedules `updateData` 500ms
later; that later poll is a separate event and not part of this call).
`confirmed` is the result of the `confirm(...)` dialog. -/
def resetCount (confirmed : Bool) (res : Fetch CmdResult) (s : DashState) : DashState :=
  if !confirmed then s
  else
    match res with
    | .netError => showNotification "❌ Failed to reset data" "error" s
    | .response _ result =>
      if result.success then
        let s1 := showNotification "🔄 All data reset successfully!" "success" s
        let sampleData := generateSampleData s1.currentPeriod
        let s2 := { s1 with
          chartLabels := sampleData.labels
          chartData := sampleData.data }
        { s2 with table := updateObjectsTable [] s2.table }
      else
        showNotification "❌ Failed to reset data" "error" s

/-- Liveness of the two recurring timers: the 3-second poll interval
(`updateInterval`, managed by `startAutoReconnect`) and the 15-second
health-check interval started in `initialize` (whose handle is never
stored). -/
structure Timers where
  pollActive : Bool
  healthActive : Bool
deriving DecidableEq, Repr

/-- `startAutoReconnect()`: clears any existing poll interval and starts a
new one, so afterwards exactly one poll interval is live. -/
def startAutoReconnect (t : Timers) : Timers :=
  { t with pollActive := true }

/-- Timer state right after `initialize()` ran `startAutoReconnect()` and
`setInterval(healthCheck, 15000)`. -/
def initTimers : Timers :=
  { pollActive := true, healthActive := true }

/-- The `visibilitychange` handler installed by `initialize()`: when hidden
it clears `updateInterval` only; when visible it calls `startAutoReconnect`
and then `updateData()` immediately.  The second component records whether
the handler fired an immediate poll. -/
def onVisibilityChange (hidden : Bool) (t : Timers) : Timers × Bool :=
  if hidden then ({ t with pollActive := false }, false)
  else (startAutoReconnect t, true)

/-- The period cycle `['day', 'week', 'month']` used by `handleGesture`. -/
def periods : List Period := [.day, .week, .month]

/-- Swipe left: `periods[(indexOf(currentPeriod) + 1) % periods.length]`. -/
def nextPeriod (p : Period) : Period :=
  let currentIndex := periods.indexOf p
  periods.getD ((currentIndex + 1) % periods.length) .day

/-- Swipe right: previous period, wrapping from index 0 to the last. -/
def prevPeriod (p : Period) : Period :=
  let currentIndex := periods.indexOf p
  periods.getD (if currentIndex = 0 then periods.length - 1 else currentIndex - 1) .day

/-- `handleGesture()` from `src/app.js`: when the horizontal travel
`touchStartX - touchEndX` exceeds the 100px threshold in absolute value,
switch to the next period (swipe left, positive diff) or the previous one
(swipe right); otherwise do nothing. -/
def handleGesture (touchStartX touchEndX : ℤ) (s : DashState) : DashState :=
  let threshold : Nat := 100
  let diff := touchStartX - touchEndX
  if diff.natAbs > threshold then
    if diff > 0 then changePeriod (nextPeriod s.currentPeriod) s
    else changePeriod (prevPeriod s.currentPeriod) s
  else s

/-- A concrete display state used by witnesses and counterexamples: the
dashboard shortly after `initialize()` ran `changePeriod('day')`, with a
connected indicator and one rendered object row. -/
def sampleState : DashState :=
  { currentPeriod := .day
    isConnected := true
    connectionIndicatorClass := "status-indicator connected"
    buttons := { dayActive := true, weekActive := false, monthActive := false }
    chartLabels := (generateSampleData .day).labels
    chartData := (generateSampleData .day).data
    chartBackground := (colorThemes .day).1
    chartBorder := (colorThemes .day).2
    table :=
      { badgeText := "1 objects"
        noObjectsDisplay := "none"
        rows := [renderRow
          { id := 7, vehicle_type := "car", confidence_score := 91,
            detected_at := "10:15:00", status := "Active" }] }
    activeObjects := "1"
    lastUpdate := "10:15:03"
    detectionGlyph := "●"
    detectionClass := "stat-value status-running"
    statusText := "Running"
    notification := none }

/-! ## Helper lemmas -/

lemma updateObjectsTable_rows_length (objects : List DetectedObject) (t : TableState) :
    (updateObjectsTable objects t).rows.length = objects.length := by
  by_cases h : objects.length = 0 <;> simp [updateObjectsTable, h]

lemma updateObjectsTable_badgeText (objects : List DetectedObject) (t : TableState) :
    (updateObjectsTable objects t).badgeText = toString objects.length ++ " objects" := by
  by_cases h : objects.length = 0 <;> simp [updateObjectsTable, h]

lemma updateDataSuccess_table (statsData : StatsData) (objectsData : ObjectsData)
    (now : String) (s : DashState) :
    (updateDataSuccess statsData objectsData now s).table =
      updateObjectsTable objectsData.objects s.table := by
  unfold updateDataSuccess
  dsimp only
  cases statsData.is_running <;>
    · dsimp only [Bool.false_eq_true, if_false, if_true, updateConnectionStatus]
      rcases statsData.analytics with _ | am
      · rfl
      · rcases h : am.get s.currentPeriod with _ | a <;> simp [h]

lemma changePeriod_currentPeriod (p : Period) (s : DashState) :
    (changePeriod p s).currentPeriod = p := by
  simp [changePeriod, showNotification]


/-! ## Claim theorems -/

/-- C1: For every poll cycle (`updateData`), if either read request fails —
by network error or by a non-success HTTP status of either response — then
`isConnected` is set to false (and the connectivity indicator loses its
`connected` class), while the previously rendered state — object table rows
and count badge, chart labels/values, detection status indicator, and the
displayed stat values — is left unchanged: no partial overwrite occurs. -/
theorem updateData_failure_preserves_render
    (statsRes : Fetch StatsData) (objectsRes : Fetch ObjectsData)
    (now : String) (s : DashState)
    (h : fetchFailed statsRes = true ∨ fetchFailed objectsRes = true) :
    ∃ s', updateData statsRes objectsRes now s = .ok s' ∧
      s'.isConnected = false ∧
      s'.connectionIndicatorClass = "status-indicator" ∧
      s'.table = s.table ∧
      s'.chartLabels = s.chartLabels ∧
      s'.chartData = s.chartData ∧
      s'.detectionGlyph = s.detectionGlyph ∧
      s'.detectionClass = s.detectionClass ∧
      s'.statusText = s.statusText ∧
      s'.activeObjects = s.activeObjects := by
  have htry : ∃ e, updateDataTry statsRes objectsRes now s = .error e := by
    cases statsRes with
    | netError => cases objectsRes <;> exact ⟨"fetch rejected", rfl⟩
    | response okStats statsData =>
      cases objectsRes with
      | netError => exact ⟨"fetch rejected", rfl⟩
      | response okObjects objectsData =>
        rcases h with h | h <;>
          simp only [fetchFailed, Bool.not_eq_true'] at h <;>
          exact ⟨"Failed to fetch data", by simp [updateDataTry, h]⟩
  obtain ⟨e, he⟩ := htry
  refine ⟨updateConnectionStatus false s, ?_, ?_, ?_, ?_, ?_, ?_, ?_, ?_, ?_, ?_⟩ <;>
    simp [updateData, he, updateConnectionStatus]

/-- C1 witness: a concrete failed cycle (stats fetch rejects, objects fetch
succeeds): the connection flag drops and the rendered state is preserved. -/
theorem updateData_failure_preserves_render_witness :
    ∃ s', updateData Fetch.netError
        (Fetch.response true { active_objects := 1, objects := [] }) "10:16:00" sampleState
        = .ok s' ∧
      s'.isConnected = false ∧
      s'.connectionIndicatorClass = "status-indicator" ∧
      s'.table = sampleState.table ∧
      s'.chartLabels = sampleState.chartLabels ∧
      s'.chartData = sampleState.chartData ∧
      s'.detectionGlyph = sampleState.detectionGlyph ∧
      s'.detectionClass = sampleState.detectionClass ∧
      s'.statusText = sampleState.statusText ∧
      s'.activeObjects = sampleState.activeObjects :=
  updateData_failure_preserves_render Fetch.netError
    (Fetch.response true { active_objects := 1, objects := [] }) "10:16:00" sampleState
    (Or.inl rfl)

/-- C2: For every poll cycle in which both requests succeed with a
well-formed payload, the rendered table has exactly `objects.length` rows
and the count badge's text shows exactly that count (followed by the word
`objects`). -/
theorem updateData_success_row_count
    (statsData : StatsData) (objectsData : ObjectsData) (now : String) (s : DashState) :
    ∃ s', updateData (.response true statsData) (.response true objectsData) now s = .ok s' ∧
      s'.table.rows.length = objectsData.objects.length ∧
      s'.table.badgeText = toString objectsData.objects.length ++ " objects" := by
  refine ⟨updateDataSuccess statsData objectsData now s, ?_, ?_, ?_⟩
  · simp [updateData, updateDataTry]
  · rw [updateDataSuccess_table]
    exact updateObjectsTable_rows_length _ _
  · rw [updateDataSuccess_table]
    exact updateObjectsTable_badgeText _ _

/-- C3: For every valid period `p`, after `changePeriod(p)`: `currentPeriod`
equals `p`, the chart's labels and values equal the hardcoded sample arrays
for `p` (which are nonempty, so the chart is never empty), and exactly one
period control button carries the `active` class. -/
theorem changePeriod_spec (p : Period) (s : DashState) :
    (changePeriod p s).currentPeriod = p ∧
    (changePeriod p s).chartLabels = (generateSampleData p).labels ∧
    (changePeriod p s).chartData = (generateSampleData p).data ∧
    (changePeriod p s).chartLabels ≠ [] ∧
    activeCount (changePeriod p s).buttons = 1 := by
  cases p <;>
    simp [changePeriod, showNotification, generateSampleData, activeCount] <;> rfl

/-- C4 counterexample: the claim says both recurring timers are canceled
when the page becomes hidden, but the `visibilitychange` handler only
clears `updateInterval`; the health-check interval's handle is never stored
and it keeps firing while the page is hidden.  Concretely, from the
just-initialized timer state, going hidden leaves the health-check timer
live. -/
theorem visibility_hidden_health_counterexample :
    ¬ ((onVisibilityChange true initTimers).1.pollActive = false ∧
       (onVisibilityChange true initTimers).1.healthActive = false) := by
  decide

/-- C4 amended: when the page becomes hidden only the poll timer is
canceled — the health-check timer's liveness is unchanged (it keeps
running) and no immediate poll fires; when the page becomes visible again
the poll timer is restarted and an immediate poll fires, the health-check
timer again unchanged. -/
theorem visibility_change_amended (t : Timers) :
    (onVisibilityChange true t).1.pollActive = false ∧
    (onVisibilityChange true t).1.healthActive = t.healthActive ∧
    (onVisibilityChange true t).2 = false ∧
    (onVisibilityChange false t).1.pollActive = true ∧
    (onVisibilityChange false t).1.healthActive = t.healthActive ∧
    (onVisibilityChange false t).2 = true := by
  simp [onVisibilityChange, startAutoReconnect]

/-- C5 counterexample: the claim says any failure — including a non-healthy
payload — marks the UI disconnected, but `healthCheck` only tests
`status === 'healthy'` and its non-healthy branch falls through to
`return false` without touching the connection status.  Concretely, a
parsed `\x7bstatus: 'unhealthy'\x7d` payload leaves a connected display
state fully unchanged (still marked connected). -/
theorem healthCheck_nonhealthy_counterexample :
    healthCheck (.response true { status := "unhealthy" }) sampleState
      = (sampleState, false) ∧
    sampleState.isConnected = true := by
  constructor <;> rfl

/-- C5 amended: a network (or parse) failure marks the UI disconnected and
a recognized healthy payload marks it connected, but a successfully parsed
non-healthy payload leaves the display state unchanged — `healthCheck`
merely returns false without marking disconnected. -/
theorem healthCheck_amended (s : DashState) :
    ((healthCheck .netError s).1.isConnected = false ∧
      (healthCheck .netError s).2 = false) ∧
    (∀ (ok : Bool) (d : HealthData), d.status = "healthy" →
      (healthCheck (.response ok d) s).1.isConnected = true ∧
      (healthCheck (.response ok d) s).2 = true) ∧
    (∀ (ok : Bool) (d : HealthData), d.status ≠ "healthy" →
      healthCheck (.response ok d) s = (s, false)) := by
  refine ⟨?_, ?_, ?_⟩
  · constructor <;> simp [healthCheck, updateConnectionStatus]
  · intro ok d hd
    constructor <;> simp [healthCheck, hd, updateConnectionStatus]
  · intro ok d hd
    simp [healthCheck, hd]

/-- C5 amended witness: a concrete non-healthy payload against a connected
state — the state comes back unchanged with result false. -/
theorem healthCheck_amended_witness :
    healthCheck (.response true { status := "degraded" }) sampleState
      = (sampleState, false) :=
  (healthCheck_amended sampleState).2.2 true { status := "degraded" } (by decide)

/-- C6: when `POST /reset-count` resolves with success `false`, `resetCount`
shows the failure notification and nothing else: the object table is not
cleared and the chart data is not reset to the sample data — the whole
displayed state except the toast is unchanged. -/
theorem resetCount_failure_preserves_state
    (ok : Bool) (msg : Option String) (s : DashState) :
    resetCount true (.response ok { success := false, message := msg }) s
      = showNotification "❌ Failed to reset data" "error" s ∧
    (resetCount true (.response ok { success := false, message := msg }) s).table = s.table ∧
    (resetCount true (.response ok { success := false, message := msg }) s).chartLabels
      = s.chartLabels ∧
    (resetCount true (.response ok { success := false, message := msg }) s).chartData
      = s.chartData ∧
    (resetCount true (.response ok { success := false, message := msg }) s).notification
      = some ("❌ Failed to reset data", "error") := by
  refine ⟨rfl, ?_, ?_, ?_, ?_⟩ <;> simp [resetCount, showNotification]

/-- C7: the derived confidence tier is a total function of the score with
inclusive boundaries: scores at least 80 map to high, scores in [60, 80)
map to medium (in particular 79 and exactly 60 map to medium), and scores
below 60 map to low; exactly 80 maps to high. -/
theorem confidenceClass_tiers :
    (∀ score : ℚ, 80 ≤ score → confidenceClass score = "confidence-high") ∧
    (∀ score : ℚ, 60 ≤ score → score < 80 → confidenceClass score = "confidence-medium") ∧
    (∀ score : ℚ, score < 60 → confidenceClass score = "confidence-low") ∧
    confidenceClass 79 = "confidence-medium" ∧
    confidenceClass 60 = "confidence-medium" ∧
    confidenceClass 80 = "confidence-high" := by
  refine ⟨?_, ?_, ?_, ?_, ?_, ?_⟩
  · intro score h
    rw [confidenceClass, if_pos h]
  · intro score h1 h2
    rw [confidenceClass, if_neg (not_le.mpr h2), if_pos h1]
  · intro score h
    rw [confidenceClass, if_neg (not_le.mpr (h.trans_le (by norm_num))),
      if_neg (not_le.mpr h)]
  · norm_num [confidenceClass]
  · norm_num [confidenceClass]
  · norm_num [confidenceClass]

/-- C7 witness: the three tier clauses applied at concrete scores 85, 70
and 59. -/
theorem confidenceClass_tiers_witness :
    confidenceClass 85 = "confidence-high" ∧
    confidenceClass 70 = "confidence-medium" ∧
    confidenceClass 59 = "confidence-low" :=
  ⟨confidenceClass_tiers.1 85 (by norm_num),
   confidenceClass_tiers.2.1 70 (by norm_num) (by norm_num),
   confidenceClass_tiers.2.2.1 59 (by norm_num)⟩

lemma handleGesture_swipe_left (x y : ℤ) (s : DashState) (h : x - y > 100) :
    handleGesture x y s = changePeriod (nextPeriod s.currentPeriod) s := by
  have h1 : (x - y).natAbs > 100 := by omega
  have h2 : x - y > 0 := by omega
  simp [handleGesture, h1, h2]

/-- C8: swipe-left gestures beyond the 100px threshold advance the period
cyclically in the order day, week, month, day: starting from
`currentPeriod` equal to day, two consecutive swipe-left gestures leave
`currentPeriod` equal to month. -/
theorem double_swipe_left_from_day (s : DashState) (x1 y1 x2 y2 : ℤ)
    (h1 : x1 - y1 > 100) (h2 : x2 - y2 > 100)
    (hd : s.currentPeriod = Period.day) :
    (handleGesture x2 y2 (handleGesture x1 y1 s)).currentPeriod = Period.month := by
  rw [handleGesture_swipe_left x1 y1 s h1,
    handleGesture_swipe_left x2 y2 _ h2,
    changePeriod_currentPeriod, changePeriod_currentPeriod, hd]
  rfl

/-- C8 witness: two concrete 200px left swipes starting from the day view
end on the month view. -/
theorem double_swipe_left_witness :
    (handleGesture 200 0 (handleGesture 200 0 sampleState)).currentPeriod
      = Period.month :=
  double_swipe_left_from_day sampleState 200 0 200 0 (by decide) (by decide) rfl

/-- C9: rendering the empty object list is idempotent: a second call on the
resulting display state yields exactly the state of the first call — the
empty-state message shown, the table body empty and the badge showing a
zero count. -/
theorem updateObjectsTable_empty_idempotent (t : TableState) :
    updateObjectsTable [] (updateObjectsTable [] t) = updateObjectsTable [] t ∧
    (updateObjectsTable [] t).noObjectsDisplay = "block" ∧
    (updateObjectsTable [] t).rows = [] ∧
    (updateObjectsTable [] t).badgeText = "0 objects" :=
  ⟨rfl, rfl, rfl, rfl⟩

/-- C10: for every outcome of the two poll requests — including when both
fail — `updateData`'s promise resolves (its internal catch handles every
failure), so `refreshData`'s catch branch is unreachable and the success
toast is always the one shown. -/
theorem refreshData_success_notice
    (statsRes : Fetch StatsData) (objectsRes : Fetch ObjectsData)
    (now : String) (s : DashState) :
    (∃ s', updateData statsRes objectsRes now s = .ok s') ∧
    (refreshData statsRes objectsRes now s).notification
      = some ("🔁 Data refreshed successfully!", "success") := by
  have h : ∃ s', updateData statsRes objectsRes now s = .ok s' := by
    unfold updateData
    cases updateDataTry statsRes objectsRes now s with
    | ok s' => exact ⟨s', rfl⟩
    | error e => exact ⟨updateConnectionStatus false s, rfl⟩
  obtain ⟨s', hs⟩ := h
  exact ⟨⟨s', hs⟩, by simp [refreshData, hs, showNotification]⟩
